import Mathlib

/-!
Verification of the `deephaven.agg` Python module (src/py/server/deephaven/agg.py):
a glue layer that constructs `Aggregation` objects wrapping either a Java
`AggSpec` (column-list aggregations) or a complete Java `Aggregation`
(count / count_where / partition / self-contained formula).

The Python module is embedded shallowly: Python values relevant to the
module's `isinstance` checks become an inductive `PyVal`; the `Union[str,
List[str]]` column argument becomes `Cols`; Python truthiness is made
explicit; fallible code returns `Except PyError`.  Java-side collaborators
that the module calls but whose source is not part of this repository
snapshot under src/ (`Pair.parse`, `UnionObject.of`, the filter combinator
`and_` from `deephaven.filters`, `to_sequence` from `deephaven.jcompat`,
and the engine-side median/percentile and count-where reductions) are
modelled from the specification, each marked `Modelled from the spec:`.
-/

deriving instance DecidableEq for Except

namespace Agg

/-- Errors surfaced to Python callers.  `dhError` embeds `DHError` raised by
this module; `javaError` embeds an exception propagating from a Java call
(such as `Pair.parse`); `attributeError` embeds Python's `AttributeError`
(attribute access on `None`). -/
inductive PyError
  | dhError (message : String)
  | javaError (message : String)
  | attributeError
deriving DecidableEq, Repr

/-- A Python value, as far as this module's `isinstance` / `is None` checks
observe it: `None`, a bool, an int, or a str. -/
inductive PyVal
  | none
  | bool (b : Bool)
  | int (n : Int)
  | str (s : String)
deriving DecidableEq, Repr

/-- `isinstance(v, str)`. -/
def PyVal.isStr : PyVal → Bool
  | .str _ => true
  | _ => false

/-- The string payload of a `PyVal.str`; only used under an `isStr` guard. -/
def PyVal.asString : PyVal → String
  | .str s => s
  | _ => ""

/-- The `cols` argument of the factory functions: `Union[str, List[str]]`
with default `None`. -/
inductive Cols
  | none
  | one (s : String)
  | many (ss : List String)
deriving DecidableEq, Repr

/-- Python truthiness of the `cols` argument: `None`, the empty string and
the empty list are falsy; everything else is truthy. -/
def Cols.truthy : Cols → Bool
  | .none => false
  | .one s => !s.isEmpty
  | .many ss => !ss.isEmpty

/-- Modelled from the spec: `deephaven.jcompat.to_sequence` (not under src/)
normalises the optional single-or-list column argument to a sequence;
`None` becomes the empty sequence, a single string becomes a one-element
sequence. -/
def to_sequence : Cols → List String
  | .none => []
  | .one s => [s]
  | .many ss => ss

/-- Python truthiness of an `Optional[str]`: `None` and the empty string
are falsy. -/
def pyTruthyStr : Option String → Bool
  | Option.none => false
  | Option.some s => !s.isEmpty

/-- A Java `io.deephaven.api.Pair`: either a plain column name or a
`new_name = source_name` rename pair. -/
inductive JPair
  | colName (s : String)
  | pair (output input : String)
deriving DecidableEq, Repr

/-- Splits a character list at every occurrence of the separator
character; splitting on `n` separators yields `n + 1` parts. -/
def splitOnChar (sep : Char) : List Char → List (List Char)
  | [] => [[]]
  | c :: rest =>
    if c = sep then [] :: splitOnChar sep rest
    else
      match splitOnChar sep rest with
      | [] => [[c]]
      | p :: ps => (c :: p) :: ps

/-- Strips leading and trailing spaces from a character list. -/
def trimChars (cs : List Char) : List Char :=
  ((cs.dropWhile (fun c => c = ' ')).reverse.dropWhile (fun c => c = ' ')).reverse

/-- Modelled from the spec: `io.deephaven.api.Pair.parse` (Java, not under
src/) parses a column reference that is "optionally a new_name =
source_name rename" and "fails ... if a rename expression cannot be parsed
into exactly one =". -/
def JPair.parse (s : String) : Except PyError JPair :=
  match (splitOnChar '=' s.toList).map (fun p => String.mk (trimChars p)) with
  | [x] => Except.ok (JPair.colName x)
  | [x, y] => Except.ok (JPair.pair x y)
  | _ => Except.error (PyError.javaError (String.append "Unable to parse pair: " s))

/-- A Java `io.deephaven.api.object.UnionObject` wrapping an arbitrary
Python value; `UnionObject.of` is modelled as plain wrapping. -/
structure UnionObject where
  val : PyVal
deriving DecidableEq, Repr

/-- Modelled from the spec: `UnionObject.of` wraps the sentinel value. -/
def UnionObject.of (v : PyVal) : UnionObject := ⟨v⟩

/-- A Java filter (`io.deephaven.api.filter.Filter`): a raw condition
expression string, or a conjunction of two filters. -/
inductive JFilter
  | raw (s : String)
  | andF (a b : JFilter)
deriving DecidableEq, Repr

/-- The Python-level `deephaven.filters.Filter` wrapper around a Java
filter. -/
structure PFilter where
  j_filter : JFilter
deriving DecidableEq, Repr

/-- An element of the `filters` argument of `count_where`: a condition
expression string or a `Filter` object. -/
inductive FilterExpr
  | str (s : String)
  | filt (f : PFilter)
deriving DecidableEq, Repr

/-- The Java filter underlying a filter argument: a string becomes a raw
condition filter. -/
def FilterExpr.toJFilter : FilterExpr → JFilter
  | .str s => JFilter.raw s
  | .filt f => f.j_filter

/-- The `filters` argument of `count_where`:
`Union[str, Filter, Sequence[str], Sequence[Filter]]`. -/
inductive FiltersArg
  | one (f : FilterExpr)
  | seq (fs : List FilterExpr)
deriving DecidableEq, Repr

/-- Modelled from the spec: `to_sequence` applied to the `filters`
argument. -/
def to_sequence_filters : FiltersArg → List FilterExpr
  | .one f => [f]
  | .seq fs => fs

/-- Conjunction of a list of Java filters, folded left as varargs AND. -/
def and_list (fs : List JFilter) : JFilter :=
  match fs with
  | [] => JFilter.raw "true"
  | f :: rest => rest.foldl JFilter.andF f

/-- Modelled from the spec: `deephaven.filters.and_` (not under src/)
"composes multiple filters with logical AND", accepting condition strings
or `Filter` objects. -/
def and_ (fs : List FilterExpr) : PFilter :=
  ⟨and_list (fs.map FilterExpr.toJFilter)⟩

/-- A Java `AggSpec` as constructed by this module: one constructor per
static factory the module calls. -/
inductive JAggSpec
  | sum
  | absSum
  | group
  | avg
  | countDistinct (count_nulls : Bool)
  | first
  | formulaSpec (formula formula_param : String)
  | last
  | min
  | max
  | median (average_evenly_divided : Bool)
  | percentile (p : ℚ) (average_evenly_divided : Bool)
  | sortedFirst (order_by : String)
  | sortedLast (order_by : String)
  | std
  | uniqueDefault
  | uniqueWith (include_nulls : Bool) (non_unique_sentinel : UnionObject)
  | var
  | wavg (wcol : String)
  | wsum (wcol : String)
  | distinct (include_nulls : Bool)
deriving DecidableEq, Repr

/-- A Java `Aggregation` as constructed by this module: the four direct
constructors, plus `spec.aggregation(*pairs)` (`fromSpec`). -/
inductive JAggregation
  | aggCount (col : String)
  | aggCountWhere (col : String) (filter : JFilter)
  | aggPartition (col : String) (include_by_columns : Bool)
  | aggFormula (formula : String)
  | fromSpec (spec : JAggSpec) (pairs : List JPair)
deriving DecidableEq, Repr

/-- The list comprehension `[_JPair.parse(col) for col in self._cols]`:
parses each column reference left to right; the first parse exception
propagates. -/
def mapParse : List String → Except PyError (List JPair)
  | [] => Except.ok []
  | x :: xs =>
    match JPair.parse x with
    | Except.error e => Except.error e
    | Except.ok v =>
      match mapParse xs with
      | Except.error e => Except.error e
      | Except.ok vs => Except.ok (v :: vs)

/-- The `Aggregation` Python class: optional `AggSpec`, optional Java
`Aggregation`, and the column list. -/
structure Aggregation where
  _j_agg_spec : Option JAggSpec
  _j_aggregation : Option JAggregation
  _cols : List String
deriving DecidableEq, Repr

/-- `Aggregation.__init__`: stores both optional fields and normalises
`cols` through `to_sequence`. -/
def Aggregation.init (j_agg_spec : Option JAggSpec) (j_aggregation : Option JAggregation)
    (cols : Cols) : Aggregation :=
  ⟨j_agg_spec, j_aggregation, to_sequence cols⟩

/-- The `j_aggregation` property: returns the stored Java aggregation if
set; otherwise requires a non-empty column list (else `DHError`) and
applies the stored spec to the parsed column pairs.  Attribute access on a
missing spec raises `AttributeError`; a parse failure propagates. -/
def Aggregation.j_aggregation (a : Aggregation) : Except PyError JAggregation :=
  match a._j_aggregation with
  | Option.some j => Except.ok j
  | Option.none =>
    if a._cols.isEmpty then
      Except.error (PyError.dhError "No columns specified for the aggregation operation.")
    else
      match a._j_agg_spec with
      | Option.none => Except.error PyError.attributeError
      | Option.some spec =>
        match mapParse a._cols with
        | Except.error e => Except.error e
        | Except.ok pairs => Except.ok (JAggregation.fromSpec spec pairs)

/-- The `j_agg_spec` property: raises `DHError` when the object wraps a
complete Java aggregation, otherwise returns the stored (possibly `None`)
spec. -/
def Aggregation.j_agg_spec (a : Aggregation) : Except PyError (Option JAggSpec) :=
  if a._j_aggregation.isSome then
    Except.error (PyError.dhError "unsupported aggregation operation.")
  else
    Except.ok a._j_agg_spec

/-- The `is_formula` property: checks whether the stored spec is an
`AggSpecFormula`, else whether the stored aggregation is a `Formula`, else
raises `DHError`. -/
def Aggregation.is_formula (a : Aggregation) : Except PyError Bool :=
  match a._j_agg_spec with
  | Option.some s =>
    Except.ok (match s with | JAggSpec.formulaSpec _ _ => true | _ => false)
  | Option.none =>
    match a._j_aggregation with
    | Option.some j =>
      Except.ok (match j with | JAggregation.aggFormula _ => true | _ => false)
    | Option.none =>
      Except.error (PyError.dhError
        "Aggregation object is not initialized with a valid aggregation specification or aggregation object.")

/-- `exOk e` is true when `e` succeeded. -/
def exOk {α : Type} (e : Except PyError α) : Bool :=
  match e with
  | Except.ok _ => true
  | Except.error _ => false

/-- `sum_`. -/
def sum_ (cols : Cols) : Except PyError Aggregation :=
  Except.ok (Aggregation.init (Option.some JAggSpec.sum) Option.none cols)

/-- `abs_sum`. -/
def abs_sum (cols : Cols) : Except PyError Aggregation :=
  Except.ok (Aggregation.init (Option.some JAggSpec.absSum) Option.none cols)

/-- `group`. -/
def group (cols : Cols) : Except PyError Aggregation :=
  Except.ok (Aggregation.init (Option.some JAggSpec.group) Option.none cols)

/-- `avg`. -/
def avg (cols : Cols) : Except PyError Aggregation :=
  Except.ok (Aggregation.init (Option.some JAggSpec.avg) Option.none cols)

/-- `count_`: requires a string `col`, else `DHError`. -/
def count_ (col : PyVal) : Except PyError Aggregation :=
  if col.isStr = false then
    Except.error (PyError.dhError "count_ aggregation requires a string value for the \x27col\x27 argument.")
  else
    Except.ok (Aggregation.init Option.none
      (Option.some (JAggregation.aggCount col.asString)) Cols.none)

/-- `count_where`: requires a string `col`, else `DHError`; normalises the
filters to a sequence and combines them with `and_`. -/
def count_where (col : PyVal) (filters : FiltersArg) : Except PyError Aggregation :=
  if col.isStr = false then
    Except.error (PyError.dhError "count_where aggregation requires a string value for the \x27col\x27 argument.")
  else
    Except.ok (Aggregation.init Option.none
      (Option.some (JAggregation.aggCountWhere col.asString
        (and_ (to_sequence_filters filters)).j_filter)) Cols.none)

/-- `partition`: requires a string `col`, else `DHError`. -/
def partition (col : PyVal) (include_by_columns : Bool) : Except PyError Aggregation :=
  if col.isStr = false then
    Except.error (PyError.dhError "partition aggregation requires a string value for the \x27col\x27 argument.")
  else
    Except.ok (Aggregation.init Option.none
      (Option.some (JAggregation.aggPartition col.asString include_by_columns)) Cols.none)

/-- `count_distinct`. -/
def count_distinct (cols : Cols) (count_nulls : Bool) : Except PyError Aggregation :=
  Except.ok (Aggregation.init (Option.some (JAggSpec.countDistinct count_nulls)) Option.none cols)

/-- `first`. -/
def first (cols : Cols) : Except PyError Aggregation :=
  Except.ok (Aggregation.init (Option.some JAggSpec.first) Option.none cols)

/-- `formula`: if `formula_param` is truthy, builds a parameterized
`AggSpec.formula` with the given `cols`; otherwise `cols` must be falsy
(else `DHError`) and a self-contained `AggFormula` aggregation is built. -/
def formula (f : String) (formula_param : Option String) (cols : Cols) :
    Except PyError Aggregation :=
  if pyTruthyStr formula_param then
    Except.ok (Aggregation.init
      (Option.some (JAggSpec.formulaSpec f (formula_param.getD ""))) Option.none cols)
  else if cols.truthy then
    Except.error (PyError.dhError "The \x27cols\x27 argument is only valid when \x27formula_param\x27 is provided.")
  else
    Except.ok (Aggregation.init Option.none
      (Option.some (JAggregation.aggFormula f)) Cols.none)

/-- `last`. -/
def last (cols : Cols) : Except PyError Aggregation :=
  Except.ok (Aggregation.init (Option.some JAggSpec.last) Option.none cols)

/-- `min_`. -/
def min_ (cols : Cols) : Except PyError Aggregation :=
  Except.ok (Aggregation.init (Option.some JAggSpec.min) Option.none cols)

/-- `max_`. -/
def max_ (cols : Cols) : Except PyError Aggregation :=
  Except.ok (Aggregation.init (Option.some JAggSpec.max) Option.none cols)

/-- `median`. -/
def median (cols : Cols) (average_evenly_divided : Bool) : Except PyError Aggregation :=
  Except.ok (Aggregation.init
    (Option.some (JAggSpec.median average_evenly_divided)) Option.none cols)

/-- `pct` (percentile). -/
def pct (percentile : ℚ) (cols : Cols) (average_evenly_divided : Bool) :
    Except PyError Aggregation :=
  Except.ok (Aggregation.init
    (Option.some (JAggSpec.percentile percentile average_evenly_divided)) Option.none cols)

/-- `sorted_first`. -/
def sorted_first (order_by : String) (cols : Cols) : Except PyError Aggregation :=
  Except.ok (Aggregation.init (Option.some (JAggSpec.sortedFirst order_by)) Option.none cols)

/-- `sorted_last`. -/
def sorted_last (order_by : String) (cols : Cols) : Except PyError Aggregation :=
  Except.ok (Aggregation.init (Option.some (JAggSpec.sortedLast order_by)) Option.none cols)

/-- `std`. -/
def std (cols : Cols) : Except PyError Aggregation :=
  Except.ok (Aggregation.init (Option.some JAggSpec.std) Option.none cols)

/-- `unique`: when no sentinel is given, `include_nulls` must be false
(else `DHError`); with a sentinel, it is wrapped in a `UnionObject`. -/
def unique (cols : Cols) (include_nulls : Bool) (non_unique_sentinel : PyVal) :
    Except PyError Aggregation :=
  if non_unique_sentinel = PyVal.none then
    if include_nulls then
      Except.error (PyError.dhError "when include_nulls is True, a non-null sentinel value must be provided.")
    else
      Except.ok (Aggregation.init (Option.some JAggSpec.uniqueDefault) Option.none cols)
  else
    Except.ok (Aggregation.init
      (Option.some (JAggSpec.uniqueWith include_nulls (UnionObject.of non_unique_sentinel)))
      Option.none cols)

/-- `var`. -/
def var (cols : Cols) : Except PyError Aggregation :=
  Except.ok (Aggregation.init (Option.some JAggSpec.var) Option.none cols)

/-- `weighted_avg`. -/
def weighted_avg (wcol : String) (cols : Cols) : Except PyError Aggregation :=
  Except.ok (Aggregation.init (Option.some (JAggSpec.wavg wcol)) Option.none cols)

/-- `weighted_sum`. -/
def weighted_sum (wcol : String) (cols : Cols) : Except PyError Aggregation :=
  Except.ok (Aggregation.init (Option.some (JAggSpec.wsum wcol)) Option.none cols)

/-- `distinct`. -/
def distinct (cols : Cols) (include_nulls : Bool) : Except PyError Aggregation :=
  Except.ok (Aggregation.init (Option.some (JAggSpec.distinct include_nulls)) Option.none cols)

/-- One call to a public factory function of the module, with its
arguments. -/
inductive FactoryCall
  | sum (cols : Cols)
  | absSum (cols : Cols)
  | group (cols : Cols)
  | avg (cols : Cols)
  | count (col : PyVal)
  | countWhere (col : PyVal) (filters : FiltersArg)
  | partition (col : PyVal) (include_by_columns : Bool)
  | countDistinct (cols : Cols) (count_nulls : Bool)
  | first (cols : Cols)
  | formula (f : String) (formula_param : Option String) (cols : Cols)
  | last (cols : Cols)
  | min (cols : Cols)
  | max (cols : Cols)
  | median (cols : Cols) (average_evenly_divided : Bool)
  | pct (percentile : ℚ) (cols : Cols) (average_evenly_divided : Bool)
  | sortedFirst (order_by : String) (cols : Cols)
  | sortedLast (order_by : String) (cols : Cols)
  | std (cols : Cols)
  | unique (cols : Cols) (include_nulls : Bool) (non_unique_sentinel : PyVal)
  | var (cols : Cols)
  | weightedAvg (wcol : String) (cols : Cols)
  | weightedSum (wcol : String) (cols : Cols)
  | distinct (cols : Cols) (include_nulls : Bool)
deriving DecidableEq, Repr

/-- Executing one factory call. -/
def applyFactory : FactoryCall → Except PyError Aggregation
  | .sum cols => sum_ cols
  | .absSum cols => abs_sum cols
  | .group cols => group cols
  | .avg cols => avg cols
  | .count col => count_ col
  | .countWhere col filters => count_where col filters
  | .partition col include_by_columns => partition col include_by_columns
  | .countDistinct cols count_nulls => count_distinct cols count_nulls
  | .first cols => first cols
  | .formula f formula_param cols => formula f formula_param cols
  | .last cols => last cols
  | .min cols => min_ cols
  | .max cols => max_ cols
  | .median cols average_evenly_divided => median cols average_evenly_divided
  | .pct percentile cols average_evenly_divided => pct percentile cols average_evenly_divided
  | .sortedFirst order_by cols => sorted_first order_by cols
  | .sortedLast order_by cols => sorted_last order_by cols
  | .std cols => std cols
  | .unique cols include_nulls non_unique_sentinel => unique cols include_nulls non_unique_sentinel
  | .var cols => var cols
  | .weightedAvg wcol cols => weighted_avg wcol cols
  | .weightedSum wcol cols => weighted_sum wcol cols
  | .distinct cols include_nulls => distinct cols include_nulls

/-- The `cols` argument of a column-list factory call (`none` for the
count / count_where / partition / formula factories, which take no column
list). -/
def FactoryCall.colsArg : FactoryCall → Option Cols
  | .sum cols => Option.some cols
  | .absSum cols => Option.some cols
  | .group cols => Option.some cols
  | .avg cols => Option.some cols
  | .count _ => Option.none
  | .countWhere _ _ => Option.none
  | .partition _ _ => Option.none
  | .countDistinct cols _ => Option.some cols
  | .first cols => Option.some cols
  | .formula _ _ _ => Option.none
  | .last cols => Option.some cols
  | .min cols => Option.some cols
  | .max cols => Option.some cols
  | .median cols _ => Option.some cols
  | .pct _ cols _ => Option.some cols
  | .sortedFirst _ cols => Option.some cols
  | .sortedLast _ cols => Option.some cols
  | .std cols => Option.some cols
  | .unique cols _ _ => Option.some cols
  | .var cols => Option.some cols
  | .weightedAvg _ cols => Option.some cols
  | .weightedSum _ cols => Option.some cols
  | .distinct cols _ => Option.some cols

/-- Whether a factory call produces an aggregation-backed object:
`count_`, `count_where`, `partition`, and `formula` in its self-contained
mode (no truthy `formula_param`). -/
def FactoryCall.aggBacked : FactoryCall → Bool
  | .count _ => true
  | .countWhere _ _ => true
  | .partition _ _ => true
  | .formula _ formula_param _ => !pyTruthyStr formula_param
  | _ => false

/-- External state a factory could conceivably touch: table and grouping
state, and a log of performed I/O. -/
structure World where
  tables : List (String × List (List (String × Int)))
  grouping_state : List String
  io_log : List String
deriving DecidableEq, Repr

/-- Executing one factory call against an explicit world.  Each branch
performs exactly the steps of the corresponding source function; none of
them reads or writes the world, mirroring the absence of I/O and table
access in the source. -/
def applyFactoryW : FactoryCall → World → Except PyError Aggregation × World
  | .sum cols, w => (sum_ cols, w)
  | .absSum cols, w => (abs_sum cols, w)
  | .group cols, w => (group cols, w)
  | .avg cols, w => (avg cols, w)
  | .count col, w => (count_ col, w)
  | .countWhere col filters, w => (count_where col filters, w)
  | .partition col include_by_columns, w => (partition col include_by_columns, w)
  | .countDistinct cols count_nulls, w => (count_distinct cols count_nulls, w)
  | .first cols, w => (first cols, w)
  | .formula f formula_param cols, w => (formula f formula_param cols, w)
  | .last cols, w => (last cols, w)
  | .min cols, w => (min_ cols, w)
  | .max cols, w => (max_ cols, w)
  | .median cols average_evenly_divided, w => (median cols average_evenly_divided, w)
  | .pct percentile cols average_evenly_divided, w => (pct percentile cols average_evenly_divided, w)
  | .sortedFirst order_by cols, w => (sorted_first order_by cols, w)
  | .sortedLast order_by cols, w => (sorted_last order_by cols, w)
  | .std cols, w => (std cols, w)
  | .unique cols include_nulls non_unique_sentinel, w =>
      (unique cols include_nulls non_unique_sentinel, w)
  | .var cols, w => (var cols, w)
  | .weightedAvg wcol cols, w => (weighted_avg wcol cols, w)
  | .weightedSum wcol cols, w => (weighted_sum wcol cols, w)
  | .distinct cols include_nulls, w => (distinct cols include_nulls, w)

/-- A table row for filter evaluation: named integer cells. -/
abbrev Row : Type := List (String × Int)

/-- Evaluating a Java filter on a row, given an interpretation `env` of the
raw condition strings; conjunctions are evaluated with logical AND. -/
def evalFilter (env : String → Row → Bool) : JFilter → Row → Bool
  | JFilter.raw s, r => env s r
  | JFilter.andF a b, r => evalFilter env a r && evalFilter env b r

/-- Modelled from the spec: the engine-side CountWhere reduction (not under
src/) "counts rows within the group for which all supplied filter
predicates evaluate true". -/
def countWhereReduce (env : String → Row → Bool) (f : JFilter) (rows : List Row) : Nat :=
  (rows.filter (fun r => evalFilter env f r)).length

/-- Modelled from the spec: the percentile reduction on an already sorted
group (not under src/): the target rank is `p * (n - 1)`; when it falls
between two values, `average_evenly_divided = true` averages them and
`false` takes the lower-indexed (smaller) one. -/
def pctOfSorted (p : ℚ) (average_evenly_divided : Bool) (s : List ℚ) : Option ℚ :=
  if s.length = 0 then Option.none
  else if (⌊p * ((s.length : ℚ) - 1)⌋ : ℤ) = ⌈p * ((s.length : ℚ) - 1)⌉ then
    s.get? (⌊p * ((s.length : ℚ) - 1)⌋ : ℤ).toNat
  else if average_evenly_divided then
    match s.get? (⌊p * ((s.length : ℚ) - 1)⌋ : ℤ).toNat,
        s.get? (⌈p * ((s.length : ℚ) - 1)⌉ : ℤ).toNat with
    | Option.some a, Option.some b => Option.some ((a + b) / 2)
    | _, _ => Option.none
  else s.get? (⌊p * ((s.length : ℚ) - 1)⌋ : ℤ).toNat

/-- Modelled from the spec: the percentile reduction over a group's values
requires "a fully materialized, sorted view of the group's values". -/
def percentileReduce (p : ℚ) (average_evenly_divided : Bool) (l : List ℚ) : Option ℚ :=
  pctOfSorted p average_evenly_divided (l.insertionSort (fun a b => a ≤ b))

/-- Modelled from the spec: the median reduction on an already sorted group
(not under src/): the middle value for odd group sizes; for even sizes the
two middle values are averaged when `average_evenly_divided = true`, else
the smaller one is taken. -/
def medOfSorted (average_evenly_divided : Bool) (s : List ℚ) : Option ℚ :=
  if s.length = 0 then Option.none
  else if s.length % 2 = 1 then s.get? (s.length / 2)
  else if average_evenly_divided then
    match s.get? (s.length / 2 - 1), s.get? (s.length / 2) with
    | Option.some a, Option.some b => Option.some ((a + b) / 2)
    | _, _ => Option.none
  else s.get? (s.length / 2 - 1)

/-- Modelled from the spec: the median reduction over a group's values. -/
def medianReduce (average_evenly_divided : Bool) (l : List ℚ) : Option ℚ :=
  medOfSorted average_evenly_divided (l.insertionSort (fun a b => a ≤ b))

theorem factory_shape (c : FactoryCall) (cs : Cols) (a : Aggregation)
    (hc : c.colsArg = Option.some cs) (ha : applyFactory c = Except.ok a) :
    a._j_aggregation = Option.none ∧ (∃ sp, a._j_agg_spec = Option.some sp) ∧
      a._cols = to_sequence cs := by
  cases c <;>
    simp only [FactoryCall.colsArg, Option.some.injEq, reduceCtorEq] at hc <;>
    subst hc <;>
    simp only [applyFactory, sum_, abs_sum, group, avg, count_distinct, first, last, min_,
      max_, median, pct, sorted_first, sorted_last, std, unique, var, weighted_avg,
      weighted_sum, distinct, Aggregation.init] at ha <;>
    (try split at ha) <;> (try split at ha) <;>
    first
      | (injection ha with h; subst h; exact ⟨rfl, ⟨_, rfl⟩, rfl⟩)
      | injection ha

theorem mapParse_error {l : List String} {s : String} (hmem : s ∈ l)
    (hbad : exOk (JPair.parse s) = false) : exOk (mapParse l) = false := by
  induction l with
  | nil => cases hmem
  | cons x xs ih =>
    rw [mapParse]
    rcases List.mem_cons.mp hmem with rfl | h
    · cases hx : JPair.parse s with
      | error e => simp [exOk]
      | ok v => rw [hx] at hbad; simp [exOk] at hbad
    · cases hx : JPair.parse x with
      | error e => simp [exOk]
      | ok v =>
        have hxs := ih h
        cases hm : mapParse xs with
        | error e => simp [exOk]
        | ok ps => rw [hm] at hxs; simp [exOk] at hxs

theorem mapParse_ok {l : List String} (h : ∀ s ∈ l, exOk (JPair.parse s) = true) :
    ∃ ps, mapParse l = Except.ok ps := by
  induction l with
  | nil => exact ⟨[], rfl⟩
  | cons x xs ih =>
    obtain ⟨ps, hps⟩ := ih (fun s hs => h s (List.mem_cons_of_mem _ hs))
    have hx := h x (List.mem_cons_self x xs)
    cases hxp : JPair.parse x with
    | error e => rw [hxp] at hx; simp [exOk] at hx
    | ok v =>
      refine ⟨v :: ps, ?_⟩
      rw [mapParse, hxp, hps]

theorem evalFilter_foldl_andF (env : String → Row → Bool) (r : Row) (gs : List JFilter) :
    ∀ g, evalFilter env (gs.foldl JFilter.andF g) r
      = (evalFilter env g r && gs.all (fun x => evalFilter env x r)) := by
  induction gs with
  | nil => intro g; simp
  | cons x xs ih =>
    intro g
    rw [List.foldl_cons, ih (JFilter.andF g x)]
    simp [evalFilter, Bool.and_assoc]

theorem evalFilter_and_list (env : String → Row → Bool) (r : Row) (fes : List FilterExpr)
    (hne : fes ≠ []) :
    evalFilter env (and_list (fes.map FilterExpr.toJFilter)) r
      = fes.all (fun fe => evalFilter env fe.toJFilter r) := by
  cases fes with
  | nil => exact absurd rfl hne
  | cons f fs =>
    rw [List.map_cons]
    rw [show and_list (FilterExpr.toJFilter f :: fs.map FilterExpr.toJFilter)
        = (fs.map FilterExpr.toJFilter).foldl JFilter.andF f.toJFilter from rfl]
    rw [evalFilter_foldl_andF]
    rw [List.all_cons]
    congr 1
    induction fs with
    | nil => rfl
    | cons a as ih => simp [List.all_cons, ih]

theorem medOfSorted_eq_pctOfSorted (b : Bool) (s : List ℚ) :
    medOfSorted b s = pctOfSorted (1/2) b s := by
  rw [medOfSorted, pctOfSorted]
  rcases Nat.eq_zero_or_pos s.length with h0 | hpos
  · simp [h0]
  · have h0 : ¬s.length = 0 := Nat.pos_iff_ne_zero.mp hpos
    rw [if_neg h0, if_neg h0]
    rcases Nat.even_or_odd s.length with he | ho
    · obtain ⟨m, hm⟩ := he
      have hm1 : 1 ≤ m := by omega
      have hr : (1/2 : ℚ) * ((s.length : ℚ) - 1) = (m : ℚ) - 1/2 := by
        rw [hm]; push_cast; ring
      have hlo : ⌊(1/2 : ℚ) * ((s.length : ℚ) - 1)⌋ = (m : ℤ) - 1 := by
        rw [hr, Int.floor_eq_iff]
        constructor <;> push_cast <;> linarith
      have hhi : ⌈(1/2 : ℚ) * ((s.length : ℚ) - 1)⌉ = (m : ℤ) := by
        rw [hr, Int.ceil_eq_iff]
        constructor <;> push_cast <;> linarith
      rw [hlo, hhi]
      have htlo : ((m : ℤ) - 1).toNat = m - 1 := by omega
      have hthi : ((m : ℤ)).toNat = m := by omega
      rw [htlo, hthi]
      have hdiv : s.length / 2 = m := by omega
      rw [hdiv]
      rw [if_neg (by omega : ¬s.length % 2 = 1), if_neg (by omega : ¬(m : ℤ) - 1 = (m : ℤ))]
    · obtain ⟨k, hk⟩ := ho
      have hr : (1/2 : ℚ) * ((s.length : ℚ) - 1) = ((k : ℕ) : ℚ) := by
        rw [hk]; push_cast; ring
      have hlo : ⌊(1/2 : ℚ) * ((s.length : ℚ) - 1)⌋ = ((k : ℕ) : ℤ) := by
        rw [hr, Int.floor_natCast]
      have hhi : ⌈(1/2 : ℚ) * ((s.length : ℚ) - 1)⌉ = ((k : ℕ) : ℤ) := by
        rw [hr, Int.ceil_natCast]
      rw [hlo, hhi]
      rw [if_pos (by omega : s.length % 2 = 1), if_pos rfl]
      have hdiv : s.length / 2 = k := by omega
      rw [hdiv, Int.toNat_natCast]

/-- Claim C1 counterexample: calling `formula` with `formula_param`
provided and `cols = None` does not fail at construction; it returns an
`Aggregation` carrying the parameterized spec, contradicting the claim
that this combination raises `InvalidArgument`. -/
theorem C1_counterexample :
    formula "max(each)" (Option.some "each") Cols.none
      = Except.ok (Aggregation.init (Option.some (JAggSpec.formulaSpec "max(each)" "each"))
          Option.none Cols.none) := rfl

/-- Claim C1 (amended): constructing a formula aggregation fails with a
`DHError` exactly when `cols` is supplied (truthy) without a truthy
`formula_param`; selecting the parameterized mode without any column list
succeeds at construction, and the missing-columns `DHError` is raised only
later, when the `j_aggregation` property is accessed. -/
theorem C1_amended : ∀ (f : String) (formula_param : Option String) (cols : Cols),
    (formula f formula_param cols
        = Except.error (PyError.dhError "The \x27cols\x27 argument is only valid when \x27formula_param\x27 is provided.")
      ↔ pyTruthyStr formula_param = false ∧ cols.truthy = true) ∧
    (pyTruthyStr formula_param = true →
      ∃ a, formula f formula_param Cols.none = Except.ok a ∧
        a.j_aggregation
          = Except.error (PyError.dhError "No columns specified for the aggregation operation.")) := by
  intro f fp cols
  constructor
  · rw [formula]
    cases hfp : pyTruthyStr fp with
    | true => simp
    | false =>
      cases hcol : cols.truthy with
      | true => simp
      | false => simp
  · intro hfp
    refine ⟨Aggregation.init (Option.some (JAggSpec.formulaSpec f (fp.getD "")))
      Option.none Cols.none, ?_, rfl⟩
    rw [formula, if_pos hfp]

/-- Claim C1 amended witness: at `formula("max(each)", formula_param = "each",
cols = None)` construction succeeds and the `j_aggregation` access raises. -/
theorem C1_amended_witness :
    ∃ a, formula "max(each)" (Option.some "each") Cols.none = Except.ok a ∧
      a.j_aggregation
        = Except.error (PyError.dhError "No columns specified for the aggregation operation.") :=
  (C1_amended "max(each)" (Option.some "each") Cols.none).2 rfl

/-- Claim C2: `unique` with `include_nulls = True` and no sentinel fails
with a `DHError`; when the sentinel is non-`None` or `include_nulls` is
`False`, construction succeeds. -/
theorem C2 : ∀ (cols : Cols) (include_nulls : Bool) (non_unique_sentinel : PyVal),
    (non_unique_sentinel = PyVal.none → include_nulls = true →
      unique cols include_nulls non_unique_sentinel
        = Except.error (PyError.dhError "when include_nulls is True, a non-null sentinel value must be provided.")) ∧
    ((non_unique_sentinel = PyVal.none → include_nulls = false) →
      ∃ a, unique cols include_nulls non_unique_sentinel = Except.ok a) := by
  intro cols incl sent
  constructor
  · intro hs hi; subst hs; subst hi; rfl
  · intro h
    by_cases hs : sent = PyVal.none
    · have hi := h hs
      subst hi; subst hs
      exact ⟨Aggregation.init (Option.some JAggSpec.uniqueDefault) Option.none cols, rfl⟩
    · exact ⟨Aggregation.init
        (Option.some (JAggSpec.uniqueWith incl (UnionObject.of sent))) Option.none cols,
        by rw [unique, if_neg hs]⟩

/-- Claim C2 witness: `unique(include_nulls = True)` without a sentinel
raises; with sentinel `0` it constructs. -/
theorem C2_witness :
    unique Cols.none true PyVal.none
      = Except.error (PyError.dhError "when include_nulls is True, a non-null sentinel value must be provided.") ∧
    ∃ a, unique Cols.none true (PyVal.int 0) = Except.ok a :=
  ⟨(C2 Cols.none true PyVal.none).1 rfl rfl,
   (C2 Cols.none true (PyVal.int 0)).2 (fun h => nomatch h)⟩

/-- Claim C3 counterexample: `sum_` called with the unparsable rename
expression `a=b=c` succeeds at construction, contradicting the claim that
the bad rename fails with `InvalidArgument` at construction time. -/
theorem C3_counterexample :
    sum_ (Cols.one "a=b=c")
      = Except.ok (Aggregation.init (Option.some JAggSpec.sum) Option.none (Cols.one "a=b=c")) :=
  rfl

/-- Claim C3 (amended): column-list factories perform no rename validation
at construction; a cols entry that cannot be parsed into exactly one `=`
makes the later `j_aggregation` property access fail, where the parse
actually happens. -/
theorem C3_amended : ∀ (c : FactoryCall) (cs : Cols) (a : Aggregation) (s : String),
    c.colsArg = Option.some cs → applyFactory c = Except.ok a →
    s ∈ a._cols → exOk (JPair.parse s) = false →
    exOk a.j_aggregation = false := by
  intro c cs a s hc ha hmem hbad
  obtain ⟨hagg, ⟨sp, hsp⟩, _⟩ := factory_shape c cs a hc ha
  have hne : a._cols.isEmpty = false := by
    cases hcl : a._cols with
    | nil => rw [hcl] at hmem; cases hmem
    | cons x xs => rfl
  have hpe := mapParse_error hmem hbad
  cases hm : mapParse a._cols with
  | error e => simp [Aggregation.j_aggregation, hagg, hsp, hne, hm, exOk]
  | ok ps => rw [hm] at hpe; simp [exOk] at hpe

/-- Claim C3 amended witness: `sum_("a=b=c")` constructs, and its
`j_aggregation` access fails. -/
theorem C3_amended_witness :
    exOk (Aggregation.init (Option.some JAggSpec.sum) Option.none (Cols.one "a=b=c")).j_aggregation
      = false :=
  C3_amended (FactoryCall.sum (Cols.one "a=b=c")) (Cols.one "a=b=c")
    (Aggregation.init (Option.some JAggSpec.sum) Option.none (Cols.one "a=b=c")) "a=b=c"
    rfl rfl (by decide) (by decide)

/-- Claim C4: `count_`, `count_where` and `partition` fail with a `DHError`
at construction exactly when the output column argument is not a string;
for string arguments all three construct successfully (filters are always
well-formed values of the filter argument type). -/
theorem C4 : ∀ (col : PyVal) (filters : FiltersArg) (include_by_columns : Bool),
    (col.isStr = false →
      count_ col = Except.error (PyError.dhError "count_ aggregation requires a string value for the \x27col\x27 argument.") ∧
      count_where col filters
        = Except.error (PyError.dhError "count_where aggregation requires a string value for the \x27col\x27 argument.") ∧
      partition col include_by_columns
        = Except.error (PyError.dhError "partition aggregation requires a string value for the \x27col\x27 argument.")) ∧
    (col.isStr = true →
      exOk (count_ col) = true ∧ exOk (count_where col filters) = true ∧
        exOk (partition col include_by_columns) = true) := by
  intro col filters incl
  constructor
  · intro h
    refine ⟨?_, ?_, ?_⟩ <;> simp [count_, count_where, partition, h]
  · intro h
    refine ⟨?_, ?_, ?_⟩ <;> simp [count_, count_where, partition, h, exOk]

/-- Claim C4 witness: a non-string column argument (the int `3`) raises;
the string `"n"` constructs for all three factories. -/
theorem C4_witness :
    count_ (PyVal.int 3)
      = Except.error (PyError.dhError "count_ aggregation requires a string value for the \x27col\x27 argument.") ∧
    exOk (count_ (PyVal.str "n")) = true ∧
    exOk (count_where (PyVal.str "n") (FiltersArg.one (FilterExpr.str "x > 0"))) = true ∧
    exOk (partition (PyVal.str "n") true) = true :=
  ⟨((C4 (PyVal.int 3) (FiltersArg.one (FilterExpr.str "x > 0")) true).1 rfl).1,
   ((C4 (PyVal.str "n") (FiltersArg.one (FilterExpr.str "x > 0")) true).2 rfl).1,
   ((C4 (PyVal.str "n") (FiltersArg.one (FilterExpr.str "x > 0")) true).2 rfl).2.1,
   ((C4 (PyVal.str "n") (FiltersArg.one (FilterExpr.str "x > 0")) true).2 rfl).2.2⟩

/-- Claim C5: every factory is pure and deterministic — executed against an
explicit world, it leaves the world unchanged (no I/O, no table or
grouping state touched), its result does not depend on the world, and it
equals the pure function of its arguments. -/
theorem C5 : ∀ (c : FactoryCall) (w w2 : World),
    (applyFactoryW c w).2 = w ∧ (applyFactoryW c w).1 = (applyFactoryW c w2).1 ∧
      (applyFactoryW c w).1 = applyFactory c := by
  intro c w w2
  cases c <;> exact ⟨rfl, rfl, rfl⟩

/-- Claim C6: `count_where` stores `AggCountWhere` over the AND of all
supplied filters, and the (spec-modelled) CountWhere reduction under that
combined filter counts exactly the rows on which every supplied predicate
evaluates true. -/
theorem C6 : ∀ (col : String) (fa : FiltersArg) (env : String → Row → Bool)
    (rows : List Row) (a : Aggregation),
    count_where (PyVal.str col) fa = Except.ok a →
    to_sequence_filters fa ≠ [] →
    a._j_aggregation = Option.some (JAggregation.aggCountWhere col
      (and_list ((to_sequence_filters fa).map FilterExpr.toJFilter))) ∧
    countWhereReduce env (and_list ((to_sequence_filters fa).map FilterExpr.toJFilter)) rows
      = (rows.filter (fun r => (to_sequence_filters fa).all
          (fun fe => evalFilter env fe.toJFilter r))).length := by
  intro col fa env rows a ha hne
  have hinv : Except.ok (Aggregation.init Option.none
      (Option.some (JAggregation.aggCountWhere col
        (and_ (to_sequence_filters fa)).j_filter)) Cols.none) = Except.ok a := ha
  injection hinv with h
  subst h
  constructor
  · rfl
  · have key : (fun r => evalFilter env
        (and_list ((to_sequence_filters fa).map FilterExpr.toJFilter)) r)
        = (fun r => (to_sequence_filters fa).all (fun fe => evalFilter env fe.toJFilter r)) :=
      funext (fun r => evalFilter_and_list env r (to_sequence_filters fa) hne)
    rw [countWhereReduce, key]

/-- Claim C6 witness: `count_where("n", ["a", "b"])` on three concrete
rows, with a condition interpretation reading the named cell, counts
exactly the rows passing both conditions. -/
theorem C6_witness :
    (Aggregation.init Option.none (Option.some (JAggregation.aggCountWhere "n"
        (and_ (to_sequence_filters (FiltersArg.seq [FilterExpr.str "a", FilterExpr.str "b"]))).j_filter))
        Cols.none)._j_aggregation
      = Option.some (JAggregation.aggCountWhere "n"
          (and_list ((to_sequence_filters (FiltersArg.seq [FilterExpr.str "a", FilterExpr.str "b"])).map
            FilterExpr.toJFilter))) ∧
    countWhereReduce (fun s r => (r.lookup s).getD 0 != 0)
        (and_list ((to_sequence_filters (FiltersArg.seq [FilterExpr.str "a", FilterExpr.str "b"])).map
          FilterExpr.toJFilter))
        [[("a", (1 : Int)), ("b", 1)], [("a", 1), ("b", 0)], [("a", 0), ("b", 1)]]
      = ([[("a", (1 : Int)), ("b", 1)], [("a", 1), ("b", 0)], [("a", 0), ("b", 1)]].filter
          (fun r => (to_sequence_filters (FiltersArg.seq [FilterExpr.str "a", FilterExpr.str "b"])).all
            (fun fe => evalFilter (fun s r => (r.lookup s).getD 0 != 0) fe.toJFilter r))).length :=
  C6 "n" (FiltersArg.seq [FilterExpr.str "a", FilterExpr.str "b"])
    (fun s r => (r.lookup s).getD 0 != 0)
    [[("a", (1 : Int)), ("b", 1)], [("a", 1), ("b", 0)], [("a", 0), ("b", 1)]]
    (Aggregation.init Option.none (Option.some (JAggregation.aggCountWhere "n"
      (and_ (to_sequence_filters (FiltersArg.seq [FilterExpr.str "a", FilterExpr.str "b"]))).j_filter))
      Cols.none)
    rfl (by decide)

/-- Claim C7: the (spec-modelled) median reduction on `[1,2,3,4]` returns
`2.5` when `average_evenly_divided` is true and `2` (the smaller middle
value) when false, and the median reduction coincides with the 50th
percentile reduction on every group. -/
theorem C7 :
    medianReduce true [1, 2, 3, 4] = Option.some (5/2) ∧
    medianReduce false [1, 2, 3, 4] = Option.some 2 ∧
    ∀ (b : Bool) (l : List ℚ), medianReduce b l = percentileReduce (1/2) b l := by
  refine ⟨?_, by decide, ?_⟩
  · norm_num [medianReduce, medOfSorted, List.insertionSort, List.orderedInsert]
  · intro b l
    rw [medianReduce, percentileReduce]
    exact medOfSorted_eq_pctOfSorted b _

/-- Claim C8 counterexample: `avg` called with at least one column — the
unparsable rename `a=b=c` — constructs, but its `j_aggregation` property
raises a parse error instead of returning the applied spec, contradicting
the claim that any non-empty column list makes the property return without
raising. -/
theorem C8_counterexample :
    avg (Cols.one "a=b=c")
      = Except.ok (Aggregation.init (Option.some JAggSpec.avg) Option.none (Cols.one "a=b=c")) ∧
    (Aggregation.init (Option.some JAggSpec.avg) Option.none (Cols.one "a=b=c")).j_aggregation
      = Except.error (PyError.javaError "Unable to parse pair: a=b=c") :=
  ⟨rfl, by decide⟩

/-- Claim C8 (amended): for an Aggregation produced by a column-list
factory, `j_aggregation` raises the no-columns `DHError` when the stored
column list is empty, and returns the stored spec applied to the parsed
pairs when the list is non-empty and every entry parses; an unparsable
entry instead propagates the parse failure. -/
theorem C8_amended : ∀ (c : FactoryCall) (cs : Cols) (a : Aggregation),
    c.colsArg = Option.some cs → applyFactory c = Except.ok a →
    (a._cols = [] →
      a.j_aggregation
        = Except.error (PyError.dhError "No columns specified for the aggregation operation.")) ∧
    (a._cols ≠ [] → (∀ s ∈ a._cols, exOk (JPair.parse s) = true) →
      ∃ sp ps, a._j_agg_spec = Option.some sp ∧ mapParse a._cols = Except.ok ps ∧
        a.j_aggregation = Except.ok (JAggregation.fromSpec sp ps)) := by
  intro c cs a hc ha
  obtain ⟨hagg, ⟨sp, hsp⟩, _⟩ := factory_shape c cs a hc ha
  constructor
  · intro hnil
    simp [Aggregation.j_aggregation, hagg, hnil]
  · intro hne hok
    obtain ⟨ps, hps⟩ := mapParse_ok hok
    refine ⟨sp, ps, hsp, hps, ?_⟩
    have hie : a._cols.isEmpty = false := by
      cases hcl : a._cols with
      | nil => exact absurd hcl hne
      | cons x xs => rfl
    simp [Aggregation.j_aggregation, hagg, hie, hsp, hps]

/-- Claim C8 amended witness: `sum_()` (no columns) raises the no-columns
`DHError` on `j_aggregation` access; `avg(["x", "y = z"])` returns the spec
applied to the parsed pairs. -/
theorem C8_amended_witness :
    (Aggregation.init (Option.some JAggSpec.sum) Option.none Cols.none).j_aggregation
      = Except.error (PyError.dhError "No columns specified for the aggregation operation.") ∧
    ∃ sp ps,
      (Aggregation.init (Option.some JAggSpec.avg) Option.none (Cols.many ["x", "y = z"]))._j_agg_spec
        = Option.some sp ∧
      mapParse (Aggregation.init (Option.some JAggSpec.avg) Option.none
        (Cols.many ["x", "y = z"]))._cols = Except.ok ps ∧
      (Aggregation.init (Option.some JAggSpec.avg) Option.none
        (Cols.many ["x", "y = z"])).j_aggregation
        = Except.ok (JAggregation.fromSpec sp ps) :=
  ⟨(C8_amended (FactoryCall.sum Cols.none) Cols.none
      (Aggregation.init (Option.some JAggSpec.sum) Option.none Cols.none) rfl rfl).1 rfl,
   (C8_amended (FactoryCall.avg (Cols.many ["x", "y = z"])) (Cols.many ["x", "y = z"])
      (Aggregation.init (Option.some JAggSpec.avg) Option.none (Cols.many ["x", "y = z"]))
      rfl rfl).2 (by decide) (by decide)⟩

/-- Claim C9: `j_agg_spec` raises the unsupported-operation `DHError` on
every aggregation-backed factory product (`count_`, `count_where`,
`partition`, self-contained `formula`), and returns the stored spec
without raising on every column-list factory product. -/
theorem C9 : ∀ (c : FactoryCall) (a : Aggregation), applyFactory c = Except.ok a →
    (c.aggBacked = true →
      a.j_agg_spec = Except.error (PyError.dhError "unsupported aggregation operation.")) ∧
    (∀ cs, c.colsArg = Option.some cs →
      ∃ sp, a._j_agg_spec = Option.some sp ∧ a.j_agg_spec = Except.ok (Option.some sp)) := by
  intro c a ha
  cases c <;>
    simp only [applyFactory, sum_, abs_sum, group, avg, count_, count_where, partition,
      count_distinct, first, formula, last, min_, max_, median, pct, sorted_first, sorted_last,
      std, unique, var, weighted_avg, weighted_sum, distinct, Aggregation.init] at ha <;>
    (try split at ha) <;> (try split at ha) <;>
    first
      | (injection ha with h; subst h; refine ⟨fun hb => ?_, fun cs hcs => ?_⟩ <;>
          first
            | rfl
            | exact ⟨_, rfl, rfl⟩
            | simp_all [FactoryCall.aggBacked, FactoryCall.colsArg, pyTruthyStr])
      | injection ha

/-- Claim C9 witness: `count_("n")` raises on `j_agg_spec`; `sum_("x")`
returns its stored spec. -/
theorem C9_witness :
    (Aggregation.init Option.none (Option.some (JAggregation.aggCount "n")) Cols.none).j_agg_spec
      = Except.error (PyError.dhError "unsupported aggregation operation.") ∧
    ∃ sp,
      (Aggregation.init (Option.some JAggSpec.sum) Option.none (Cols.one "x"))._j_agg_spec
        = Option.some sp ∧
      (Aggregation.init (Option.some JAggSpec.sum) Option.none (Cols.one "x")).j_agg_spec
        = Except.ok (Option.some sp) :=
  ⟨(C9 (FactoryCall.count (PyVal.str "n"))
      (Aggregation.init Option.none (Option.some (JAggregation.aggCount "n")) Cols.none) rfl).1 rfl,
   (C9 (FactoryCall.sum (Cols.one "x"))
      (Aggregation.init (Option.some JAggSpec.sum) Option.none (Cols.one "x")) rfl).2
      (Cols.one "x") rfl⟩

/-- Claim C10: every factory-produced Aggregation has exactly one of its
two underlying representations set — the spec is present exactly when the
Java aggregation is absent — and consequently `is_formula` never raises on
it. -/
theorem C10 : ∀ (c : FactoryCall) (a : Aggregation), applyFactory c = Except.ok a →
    a._j_agg_spec.isSome = a._j_aggregation.isNone ∧ exOk a.is_formula = true := by
  intro c a ha
  cases c <;>
    simp only [applyFactory, sum_, abs_sum, group, avg, count_, count_where, partition,
      count_distinct, first, formula, last, min_, max_, median, pct, sorted_first, sorted_last,
      std, unique, var, weighted_avg, weighted_sum, distinct, Aggregation.init] at ha <;>
    (try split at ha) <;> (try split at ha) <;>
    first
      | (injection ha with h; subst h; exact ⟨rfl, rfl⟩)
      | injection ha

/-- Claim C10 witness: the product of `sum_("x")` has exactly the spec side
set and `is_formula` succeeds on it. -/
theorem C10_witness :
    (Aggregation.init (Option.some JAggSpec.sum) Option.none (Cols.one "x"))._j_agg_spec.isSome
      = (Aggregation.init (Option.some JAggSpec.sum) Option.none (Cols.one "x"))._j_aggregation.isNone ∧
    exOk (Aggregation.init (Option.some JAggSpec.sum) Option.none (Cols.one "x")).is_formula
      = true :=
  C10 (FactoryCall.sum (Cols.one "x"))
    (Aggregation.init (Option.some JAggSpec.sum) Option.none (Cols.one "x")) rfl

end Agg
